import Mathlib

/-!
Verification development for the rf-db-mailer repository.

The repository fetches mail templates and translations from a database cache,
renders them with a mustache-style engine extended by a pipe-filter syntax
(the `mustacheWax` layer in `src/index.js`), and sends the rendered message
through a mail transport.

The definitions below are a shallow embedding of `src/index.js`:
* JavaScript values appearing in render contexts and filter parameters are
  modelled by the inductive `Value` (`vNull` stands for both `undefined` and
  `null`; JS floats are modelled exactly as decimal numbers `mant / 10^scale`,
  which is faithful for the literal-classification behaviour under study).
* Fallible code paths (the wax layer throws a `TypeError` when the
  filter-name regex fails to match a pipe segment) return `Except`.
* The third-party collaborators (the mustache engine core, the html-to-text
  converter, nodemailer, the database driver) are not part of the repository;
  where a claim needs them they are modelled from the spec, as documented on
  the corresponding definitions.
-/

/-- A JavaScript value as it occurs in render contexts, filter parameters and
transport configurations. `vNull` models both `undefined` and `null`. A float
`vFloat m s` denotes the decimal number `m / 10^s`. -/
inductive Value where
  | vNull : Value
  | vStr (s : String) : Value
  | vInt (n : Int) : Value
  | vFloat (mant : Int) (scale : Nat) : Value
  | vObj (fields : List (String × Value)) : Value

/-- JavaScript truthiness of a `Value`. -/
def jsTruthy : Value → Bool
  | .vNull => false
  | .vStr s => s ≠ ""
  | .vInt n => n ≠ 0
  | .vFloat m _ => m ≠ 0
  | .vObj _ => true

/-- The single-quote character, written via its code point. -/
def squote : Char := Char.ofNat 39

/-- The double-quote character, written via its code point. -/
def dquote : Char := Char.ofNat 34

/-- Strip leading and trailing whitespace from a character list. -/
def trimChars (l : List Char) : List Char :=
  ((l.dropWhile Char.isWhitespace).reverse.dropWhile Char.isWhitespace).reverse

/-- JavaScript `String.prototype.trim`. -/
def jsTrim (s : String) : String := String.mk (trimChars s.toList)

/-- First-match association-list lookup, modelling a JS object property read
(`obj[k]`, `undefined` when absent is rendered as `none`). -/
def mapGetS {α : Type} (m : List (String × α)) (k : String) : Option α :=
  match m with
  | [] => none
  | (k', v) :: rest => if k' = k then some v else mapGetS rest k

/-- JS object property assignment `obj[k] = v`: overwrite an existing key in
place, otherwise append the new key. -/
def assocSet {α : Type} : List (String × α) → String → α → List (String × α)
  | [], k, v => [(k, v)]
  | (k', v') :: rest, k, v =>
    if k' = k then (k', v) :: rest else (k', v') :: assocSet rest k v

/-- Split a character list at each pipe character, as JS `name.split('|')`. -/
def splitOnPipe : List Char → List (List Char)
  | [] => [[]]
  | c :: rest =>
    match splitOnPipe rest with
    | [] => [[]]
    | seg :: segs => if c = '|' then [] :: seg :: segs else (c :: seg) :: segs

/-- The error thrown by `applyFilter` when `filterExp.exec(fltr)` returns
`null` and the code dereferences `match[1]` (src/index.js line 266). -/
def typeErrorNullMatch : String :=
  "TypeError: cannot read property 1 of null"

/-- Result of `filterExp.exec(fltr)` followed by `match[1].trim()` in
`applyFilter` (src/index.js lines 263-266). The regex `/^\s*([^:]+)/` matches
iff the segment is nonempty and does not begin with a colon; the captured
group, after the surrounding `.trim()`, is the segment text up to the first
colon with whitespace stripped. `none` models the `null` match whose
dereference throws. -/
def filterMatch (s : String) : Option String :=
  match s.toList with
  | [] => none
  | c :: rest =>
    if c = ':' then none
    else some (String.mk (trimChars ((c :: rest).takeWhile (fun d => d ≠ ':'))))

/-- Split a character list at the first occurrence of `q`, returning the
content before it and the remainder after it. -/
def findClose (q : Char) : List Char → Option (List Char × List Char)
  | [] => none
  | c :: cs =>
    if c = q then some ([], cs)
    else (findClose q cs).map (fun p => (c :: p.1, p.2))

/-- One attempted match of the parameter regex
`/:\s*(['][^']*[']|["][^"]*["]|[^:]+)\s*/g` of `applyFilter` at a colon:
`rest` is the text after the colon; the result is the captured group (with
quotes included, as in the source regex) and the remaining text after the
match, or `none` when the alternation fails at this colon. -/
def tryParam (rest : List Char) : Option (List Char × List Char) :=
  let ws := rest.takeWhile Char.isWhitespace
  let body := rest.dropWhile Char.isWhitespace
  match body with
  | c :: cs =>
    if c = squote then
      match findClose squote cs with
      | some (content, after) =>
        some (squote :: content ++ [squote], after.dropWhile Char.isWhitespace)
      | none =>
        -- unclosed quote: the alternation falls through to `[^:]+`,
        -- which matches from the quote character up to the next colon
        let t := body.takeWhile (fun d => d ≠ ':')
        some (t, body.drop t.length)
    else if c = dquote then
      match findClose dquote cs with
      | some (content, after) =>
        some (dquote :: content ++ [dquote], after.dropWhile Char.isWhitespace)
      | none =>
        let t := body.takeWhile (fun d => d ≠ ':')
        some (t, body.drop t.length)
    else if c = ':' then
      -- `[^:]+` fails right away; the regex engine backtracks into `\s*`,
      -- so with nonempty leading whitespace the capture is its last character
      match ws.reverse with
      | [] => none
      | w :: _ => some ([w], body)
    else
      let t := body.takeWhile (fun d => d ≠ ':')
      some (t, body.drop t.length)
  | [] =>
    match ws.reverse with
    | [] => none
    | w :: _ => some ([w], body)

/-- Fuelled scan of `while ((match = paramsExp.exec(fltr)))` in `applyFilter`:
find each colon at which the parameter regex matches and collect the captured
groups left to right. The fuel is the length of the scanned text; every step
consumes at least one character, so the fuel never runs out on the initial
call of `scanParams`. -/
def scanParamsAux : Nat → List Char → List String
  | 0, _ => []
  | _ + 1, [] => []
  | n + 1, ':' :: rest =>
    match tryParam rest with
    | some (cap, rest') => String.mk cap :: scanParamsAux n rest'
    | none => scanParamsAux n rest
  | n + 1, _ :: rest => scanParamsAux n rest

/-- All parameter captures of a filter segment, in order. -/
def scanParams (l : List Char) : List String := scanParamsAux l.length l

/-- Whether `c` is one of the two quote characters of the regex
`/^['"](.*)['"]$/` in `parseParam`. -/
def isQuoteChar (c : Char) : Bool := c = squote || c = dquote

/-- Whether the middle of a candidate quoted literal is matchable by `(.*)`
(the dot of a JS regex without the `s` flag does not match line
terminators). -/
def noNewline (l : List Char) : Bool :=
  l.all (fun c => c ≠ Char.ofNat 10 && c ≠ Char.ofNat 13)

/-- The test `isString.test(param)` of `parseParam`
(regex `/^['"](.*)['"]$/`): at least two characters, first and last are quote
characters (not necessarily matching), and the middle contains no line
terminator. -/
def isStringLit (p : String) : Bool :=
  match p.toList with
  | [] => false
  | c :: rest =>
    match rest.reverse with
    | [] => false
    | d :: midRev => isQuoteChar c && isQuoteChar d && noNewline midRev

/-- `param.replace(isString, '$1')`: the quoted literal without its first and
last characters. -/
def stripQuotes (p : String) : String :=
  String.mk ((p.toList.drop 1).dropLast)

/-- Split an optional leading sign from a literal, returning the sign factor
and the remaining characters. -/
def splitSign (l : List Char) : Int × List Char :=
  match l with
  | c :: rest =>
    if c = '+' then (1, rest)
    else if c = '-' then (-1, rest)
    else (1, l)
  | [] => (1, [])

/-- The test `isInteger.test(param)` of `parseParam`
(regex `/^[+-]?\d+$/`). -/
def isIntegerLit (p : String) : Bool :=
  let d := (splitSign p.toList).2
  !d.isEmpty && d.all Char.isDigit

/-- Value of a digit string. -/
def digitsVal (l : List Char) : Nat :=
  l.foldl (fun a c => a * 10 + (c.toNat - 48)) 0

/-- `parseInt(param, 10)` on a string matching `/^[+-]?\d+$/`. -/
def jsParseInt (p : String) : Int :=
  let sd := splitSign p.toList
  sd.1 * (digitsVal sd.2 : Int)

/-- The test `isFloat.test(param)` of `parseParam`
(regex `/^[+-]?\d*\.\d+$/`). -/
def isFloatLit (p : String) : Bool :=
  let d := (splitSign p.toList).2
  let ip := d.takeWhile (fun c => c ≠ '.')
  match d.drop ip.length with
  | '.' :: fp => ip.all Char.isDigit && (!fp.isEmpty && fp.all Char.isDigit)
  | _ => false

/-- `parseFloat(param)` on a string matching `/^[+-]?\d*\.\d+$/`, modelled as
the exact decimal value. -/
def jsParseFloat (p : String) : Value :=
  let sd := splitSign p.toList
  let ip := sd.2.takeWhile (fun c => c ≠ '.')
  let fp := sd.2.drop (ip.length + 1)
  .vFloat (sd.1 * ((digitsVal ip * 10 ^ fp.length + digitsVal fp : Nat) : Int)) fp.length

/-- Dotted property access on a `Value`, one step. -/
def getField (v : Value) (k : String) : Value :=
  match v with
  | .vObj fields =>
    match mapGetS fields k with
    | some w => w
    | none => .vNull
  | _ => .vNull

/-- Split a character list at each dot, as the mustache lookup does with
`name.split('.')`. -/
def splitOnDot : List Char → List (List Char)
  | [] => [[]]
  | c :: rest =>
    match splitOnDot rest with
    | [] => [[]]
    | seg :: segs => if c = '.' then [] :: seg :: segs else (c :: seg) :: segs

/-- Modelled from the spec: the original mustache `Context.prototype.lookup`
(the third-party engine kept aside by `mustacheWax`, src/index.js line 281) —
"dotted lookup against the layered RenderContext ... Missing path resolves to
an empty/falsy value — never an error" (§4.2). Our renders use a single
context frame, so the layered scope chain collapses to dotted access on the
root context object. -/
def lookupPath (ctx : Value) (name : String) : Value :=
  if name = "." then ctx
  else ((splitOnDot name.toList).map String.mk).foldl getField ctx

/-- The `lookup` passed to `parseParam` is `this.lookup.bind(this)`, i.e. the
overridden `parseExpression`. A parameter never contains a pipe character
(it was produced by splitting the token body on pipes), so the override
degenerates to the original lookup applied to the trimmed parameter. -/
def lookupParam (ctx : Value) (q : String) : Value :=
  lookupPath ctx (jsTrim q)

/-- `parseParam` (src/index.js lines 240-254): classify one filter parameter
as quoted string, integer literal, float literal, or nested path lookup, in
that order. -/
def parseParam (param : String) (lookup : String → Value) : Value :=
  if isStringLit param then .vStr (stripQuotes param)
  else if isIntegerLit param then .vInt (jsParseInt param)
  else if isFloatLit param then jsParseFloat param
  else lookup param

/-- The filter registry `Mustache.Formatters` (an object mapping filter names
to functions; a formatter receives the upstream value followed by the parsed
parameters as its argument list). -/
def FilterReg : Type := List (String × (List Value → Value))

/-- `Mustache.Formatters.hasOwnProperty(filter)` / `Mustache.Formatters[filter]`. -/
def lookupFilter (reg : FilterReg) (f : String) : Option (List Value → Value) :=
  mapGetS reg f

/-- `applyFilter` (src/index.js lines 261-276): extract the filter name (a
`null` regex match throws a `TypeError`), parse the colon-separated
parameters, and apply the registered formatter; an unregistered name returns
the upstream expression unchanged. -/
def applyFilter (reg : FilterReg) (ctx : Value) (expr : Value) (fltr : String) :
    Except String Value :=
  match filterMatch fltr with
  | none => .error typeErrorNullMatch
  | some filter =>
    let params :=
      expr :: (scanParams fltr.toList).map (fun p => parseParam (jsTrim p) (lookupParam ctx))
    match lookupFilter reg filter with
    | some f => .ok (f params)
    | none => .ok expr

/-- The `for` loop of `parseExpression` (src/index.js lines 292-294): apply
the filter segments left to right, propagating a thrown `TypeError`. -/
def evalFilters (reg : FilterReg) (ctx : Value) : List String → Value → Except String Value
  | [], v => .ok v
  | s :: rest, v =>
    match applyFilter reg ctx v s with
    | .ok w => evalFilters reg ctx rest w
    | .error e => .error e

/-- The overridden `Mustache.Context.prototype.lookup`, named `parseExpression`
in the source (src/index.js lines 286-296): split the token body on pipes,
resolve the first segment with the original lookup, then apply the filters. -/
def parseExpression (reg : FilterReg) (ctx : Value) (name : String) :
    Except String Value :=
  match (splitOnPipe name.toList).map String.mk with
  | [] => .ok .vNull
  | e :: fs => evalFilters reg ctx fs (lookupPath ctx (jsTrim e))

/-- Escape one character as mustache's `escapeHtml` entity map does. -/
def escapeChar (c : Char) : String :=
  if c = '&' then "&amp;"
  else if c = '<' then "&lt;"
  else if c = '>' then "&gt;"
  else if c = dquote then "&quot;"
  else if c = squote then "&#39;"
  else if c = '/' then "&#x2F;"
  else if c.toNat = 96 then "&#x60;"
  else if c = '=' then "&#x3D;"
  else String.singleton c

/-- Modelled from the spec: the HTML escaping the Template Engine applies to
double-brace interpolations (§4.2 "HTML-escaped or raw depending on the
double-vs-triple-brace token form"), as mustache's `escapeHtml`. -/
def escapeHtml (s : String) : String :=
  String.join (s.toList.map escapeChar)

/-- Strip trailing zero characters. -/
def trimTrailingZeros (l : List Char) : List Char :=
  (l.reverse.dropWhile (fun c => c = '0')).reverse

/-- JS `String(x)` for a decimal number `m / 10^s`. -/
def floatToString (m : Int) (s : Nat) : String :=
  let sign := if m < 0 then "-" else ""
  let n := m.natAbs
  let d := 10 ^ s
  let ip := n / d
  let fp := n % d
  if fp = 0 then sign ++ toString ip
  else
    let fpStr := toString fp
    let pad := String.mk (List.replicate (s - fpStr.length) '0')
    sign ++ toString ip ++ "." ++ String.mk (trimTrailingZeros (pad ++ fpStr).toList)

/-- Modelled from the spec: the stringification the Template Engine applies to
an interpolated value — "Unresolved paths produce empty string, never throw"
(§4.3); other values are written with JS `String(...)`. -/
def stringifyVal : Value → String
  | .vNull => ""
  | .vStr s => s
  | .vInt n => toString n
  | .vFloat m s => floatToString m s
  | .vObj _ => "[object Object]"

/-- Split a character list at the first closing `}}`, returning the token body
and the remainder, or `none` when the tag is unclosed. -/
def splitAtClose : List Char → Option (List Char × List Char)
  | '}' :: '}' :: rest => some ([], rest)
  | c :: rest => (splitAtClose rest).map (fun p => (c :: p.1, p.2))
  | [] => none

/-- Modelled from the spec: the Template Engine (§4.3) — the third-party
mustache core, restricted to variable interpolation of double-brace tokens,
which is the only construct the claims exercise (sections, partials,
unescaped and special tags are not modelled). Each token body is trimmed and
resolved through the overridden lookup `parseExpression`; the value is
stringified and HTML-escaped; a `TypeError` thrown by the lookup propagates.
The fuel is the input length; every step consumes at least one character, so
the fuel never runs out on the initial call of `render`. -/
def renderAux (reg : FilterReg) (ctx : Value) : Nat → List Char → Except String (List Char)
  | 0, _ => .ok []
  | _ + 1, [] => .ok []
  | n + 1, '{' :: '{' :: rest =>
    match splitAtClose rest with
    | none => .error "unclosed tag"
    | some (body, rest') =>
      match parseExpression reg ctx (jsTrim (String.mk body)) with
      | .error e => .error e
      | .ok v =>
        match renderAux reg ctx n rest' with
        | .error e => .error e
        | .ok t => .ok ((escapeHtml (stringifyVal v)).toList ++ t)
  | n + 1, c :: rest =>
    match renderAux reg ctx n rest with
    | .error e => .error e
    | .ok t => .ok (c :: t)

/-- `mustache.render(templateText, context)` with the wax lookup override
installed (src/index.js line 152). -/
def render (reg : FilterReg) (ctx : Value) (tmpl : String) : Except String String :=
  match renderAux reg ctx tmpl.toList.length tmpl.toList with
  | .error e => .error e
  | .ok l => .ok (String.mk l)

/-- The instance options built by `start` (src/index.js lines 54-60).
`mustacheFormatter` is the filter registry installed into
`mustache.Formatters` on every `getTemplate` call (line 153). -/
structure Opts where
  defaultLanguage : String
  transporter : Option Value
  mustacheFormatter : FilterReg

/-- The module-level mutable state of src/index.js: the options and the three
in-memory caches `translations`, `templates` and `subjects`. A cache entry
whose stored value is `none` models a key assigned the JS value `undefined`
(a fetched document lacking that field). -/
structure MailerState where
  opts : Opts
  translations : List (String × Value)
  templates : List (String × Option String)
  subjects : List (String × Option String)

/-- The `templateOps` argument of `getTemplate`:
`{ name, language?, data? }`. -/
structure TemplateOps where
  language : Option String
  name : Option String
  data : Option Value

/-- The message object assembled by `getTemplate`; `none` fields are JS
`undefined` (never assigned). -/
structure RenderedMessage where
  subject : Option String
  html : Option String
  text : Option String

/-- How one `getTemplate` call ends: the callback receives an error, the
callback receives the message, or an exception escapes uncaught. -/
inductive GetTemplateResult where
  | cbErr (e : String) : GetTemplateResult
  | ok (m : RenderedMessage) : GetTemplateResult
  | thrown (e : String) : GetTemplateResult

/-- JS `a || b` on two optional strings (`none` is `undefined`, the empty
string is falsy). -/
def jsOrOptS (a : Option String) (b : Option String) : Option String :=
  match a with
  | some s => if s ≠ "" then some s else b
  | none => b

/-- Truthiness of an optional string. -/
def truthyOptS (a : Option String) : Bool :=
  match a with
  | some s => s ≠ ""
  | none => false

/-- A cache read `templates[tmplName]` followed by the truthiness test
`if (template)`: `some s` exactly when the stored value is a nonempty string
(the key may be absent, or present with `undefined` or `""`, all falsy). The
name itself may be `undefined` (`templateOps.name` missing), in which case
the read yields `undefined`. -/
def truthyStrOf (cache : List (String × Option String)) (name : Option String) :
    Option String :=
  match name with
  | none => none
  | some key =>
    match mapGetS cache key with
    | some (some s) => if s ≠ "" then some s else none
    | _ => none

/-- `let lang = templateOps.language || opts.defaultLanguage || 'de'`
(src/index.js line 121). -/
def effectiveLang (st : MailerState) (ops : TemplateOps) : String :=
  match jsOrOptS ops.language (jsOrOptS (some st.opts.defaultLanguage) (some "de")) with
  | some s => s
  | none => "de"

/-- The language-selection block of `getTemplate` (src/index.js lines
122-136): use the chosen translation when truthy, else fall back to the
default language's bundle when a default language is configured, else
`undefined`. (`lang` is always truthy because of the `'de'` fallback, and the
module-level `translations` array is always truthy.) -/
def langObjOf (st : MailerState) (ops : TemplateOps) : Value :=
  let lang := effectiveLang st ops
  let translation :=
    match mapGetS st.translations lang with
    | some v => v
    | none => .vNull
  if jsTruthy translation then translation
  else if st.opts.defaultLanguage ≠ "" then
    match mapGetS st.translations st.opts.defaultLanguage with
    | some v => v
    | none => .vNull
  else .vNull

/-- The `templates` cache as the context object it becomes inside
`compileData`. -/
def templatesObj (tm : List (String × Option String)) : Value :=
  .vObj (tm.map (fun e => (e.1,
    match e.2 with
    | some t => Value.vStr t
    | none => Value.vNull)))

/-- `compileData` (src/index.js lines 145-149):
`{ data: templateOps.data, lang: langObj, templates: templates }`. -/
def compileData (st : MailerState) (ops : TemplateOps) : Value :=
  .vObj [("data", match ops.data with | some d => d | none => .vNull),
         ("lang", langObjOf st ops),
         ("templates", templatesObj st.templates)]

/-- The two-pass rendering applied to the subject and to the body
(src/index.js lines 156-168): render, then render the result again through
the same engine and context; `none` (no truthy stored text) renders
nothing. -/
def renderTwiceOpt (reg : FilterReg) (ctx : Value) (sOpt : Option String) :
    Except String (Option String) :=
  match sOpt with
  | none => .ok none
  | some s =>
    match render reg ctx s with
    | .error e => .error e
    | .ok r1 =>
      match render reg ctx r1 with
      | .error e => .error e
      | .ok r2 => .ok (some r2)

/-- `getTemplate` (src/index.js lines 109-177), with the callback modelled as
supplied and the html-to-text collaborator passed as `h2t` (invoked with the
fixed word-wrap option). The subject is rendered twice when a truthy subject
text is stored; the body likewise, and when no truthy body text is stored the
rendered subject becomes the body. An exception thrown by a render escapes
uncaught. -/
def getTemplate (h2t : String → String) (st : MailerState)
    (tOps : Option TemplateOps) : GetTemplateResult :=
  match tOps with
  | none => .cbErr "no template defined"
  | some ops =>
    match renderTwiceOpt st.opts.mustacheFormatter (compileData st ops)
        (truthyStrOf st.subjects ops.name) with
    | .error e => .thrown e
    | .ok subj =>
      match (match truthyStrOf st.templates ops.name with
             | some t =>
               renderTwiceOpt st.opts.mustacheFormatter (compileData st ops) (some t)
             | none => .ok subj) with
      | .error e => .thrown e
      | .ok html =>
        .ok { subject := subj, html := html,
              text := if truthyOptS html then
                        some (h2t (match html with | some h => h | none => ""))
                      else none }

/-- A translation document fetched from the store:
`{ lang, keys }` (src/index.js lines 83-85). -/
structure TranslationDoc where
  lang : String
  keys : Value

/-- A template document fetched from the store:
`{ name, text, subject }` (src/index.js lines 99-102); `text` or `subject`
may be absent (`undefined`). -/
structure TemplateDoc where
  name : String
  text : Option String
  subject : Option String

/-- How one store-fetch handler ends: the success path, the error path with a
callback supplied (`log.error(err); callback(err)`), or the error path with
no callback supplied, where `callback(err)` dereferences `undefined` and
throws. -/
inductive FetchStep where
  | success : FetchStep
  | cbError (e : String) : FetchStep
  | thrownTypeError (e : String) : FetchStep

/-- The error thrown by `callback(err)` when `getTranslations`/`getTemplates`
was invoked without a callback, as `reloadTemplates` does. -/
def callbackUndefinedMsg : String := "TypeError: callback is not a function"

/-- `getTranslations` (src/index.js lines 74-88) given the fetch outcome: on
success each fetched document is assigned onto the live cache key-by-key
(`translations[translation.lang] = translation.keys`); on error the cache is
untouched, the error is logged and the callback invoked — throwing when no
callback was supplied. -/
def getTranslationsStep (old : List (String × Value))
    (res : Except String (List TranslationDoc)) (hasCallback : Bool) :
    List (String × Value) × FetchStep :=
  match res with
  | .error e =>
    (old, if hasCallback then .cbError e else .thrownTypeError callbackUndefinedMsg)
  | .ok docs =>
    (docs.foldl (fun m d => assocSet m d.lang d.keys) old, .success)

/-- `getTemplates` (src/index.js lines 90-105) given the fetch outcome: on
success each fetched document is assigned onto the two live caches key-by-key
(`templates[template.name] = template.text`,
`subjects[template.name] = template.subject`); on error both caches are
untouched. -/
def getTemplatesStep (oldT oldS : List (String × Option String))
    (res : Except String (List TemplateDoc)) (hasCallback : Bool) :
    (List (String × Option String) × List (String × Option String)) × FetchStep :=
  match res with
  | .error e =>
    ((oldT, oldS), if hasCallback then .cbError e else .thrownTypeError callbackUndefinedMsg)
  | .ok docs =>
    (docs.foldl (fun p d => (assocSet p.1 d.name d.text, assocSet p.2 d.name d.subject))
       (oldT, oldS), .success)

/-- The observable result of one `reloadTemplates` call: the state after both
fetch handlers ran, and how each handler ended. -/
structure ReloadResult where
  state : MailerState
  transStep : FetchStep
  tmplStep : FetchStep

/-- `reloadTemplates` (src/index.js lines 67-71): trigger both fetches, each
handler running with no callback supplied. The two fetches are independent;
the outcome of one does not affect the other. -/
def reloadTemplates (st : MailerState)
    (transRes : Except String (List TranslationDoc))
    (tmplRes : Except String (List TemplateDoc)) : ReloadResult :=
  let tr := getTranslationsStep st.translations transRes false
  let tp := getTemplatesStep st.templates st.subjects tmplRes false
  { state :=
      { st with
        translations := tr.1
        templates := tp.1.1
        subjects := tp.1.2 }
    transStep := tr.2
    tmplStep := tp.2 }

/-- The nodemailer message object passed to `send`; `none` fields are absent
(`undefined`). -/
structure MailMessage where
  -- models `message.to` (`to` is a reserved token in this Lean environment)
  toAddr : Option String
  subject : Option String
  html : Option String
  text : Option String
  transporter : Option Value

/-- `JSON.parse(JSON.stringify(v))` on a defined value: object fields holding
`undefined` are dropped by `JSON.stringify`; everything else round-trips. -/
def jsonRoundFields : List (String × Value) → List (String × Value)
  | [] => []
  | (_, .vNull) :: rest => jsonRoundFields rest
  | (k, .vStr s) :: rest => (k, .vStr s) :: jsonRoundFields rest
  | (k, .vInt n) :: rest => (k, .vInt n) :: jsonRoundFields rest
  | (k, .vFloat m s) :: rest => (k, .vFloat m s) :: jsonRoundFields rest
  | (k, .vObj fs) :: rest => (k, .vObj (jsonRoundFields fs)) :: jsonRoundFields rest

/-- `JSON.parse(JSON.stringify(v))` on a defined value, at the top level. -/
def jsonRound : Value → Value
  | .vObj fields => .vObj (jsonRoundFields fields)
  | v => v

/-- Whether a value is `undefined` (`JSON.stringify` returns `undefined` on
it, so the subsequent `JSON.parse` throws a `SyntaxError`). -/
def isUndefined : Value → Bool
  | .vNull => true
  | _ => false

/-- `message.transporter || opts.transporter` (src/index.js line 192), with
absent fields read as `undefined`. -/
def chooseTransporter (m : MailMessage) (optT : Option Value) : Value :=
  let mt := match m.transporter with | some v => v | none => .vNull
  if jsTruthy mt then mt
  else match optT with | some v => v | none => .vNull

/-- How one `send` call ends: an early validation error reported through the
callback, a `SyntaxError` thrown by `JSON.parse(undefined)`, the
no-transporter abort (which only logs — the callback is never invoked), a
render exception escaping uncaught, a template error reported through the
callback, or the transport being created and `sendMail` invoked with the
resolved config and the final message. Outcomes after line 193 carry the
caller's message as mutated so far. -/
inductive SendOutcome where
  | cbErr (e : String) : SendOutcome
  | thrownJson (e : String) : SendOutcome
  | noTransporter (m : MailMessage) : SendOutcome
  | thrownRender (e : String) (m : MailMessage) : SendOutcome
  | cbTemplateErr (e : String) (m : MailMessage) : SendOutcome
  | transport (cfg : Value) (m : MailMessage) : SendOutcome

/-- `send` (src/index.js lines 180-223), with the callback modelled as
supplied. Validation: a missing message or missing/falsy `to` wins the error
message over a missing template (later assignments overwrite `errMsg`).
Then the transport config is resolved (message-level field first, else the
instance default), deep-copied via JSON (throwing on `undefined`), and the
`transporter` field is deleted from the message before anything is
forwarded. The rendered fields are assigned onto the caller's message only
where the existing field is falsy, and the same object is handed to
`sendMail`. -/
def send (h2t : String → String) (st : MailerState)
    (template : Option TemplateOps) (message : Option MailMessage) : SendOutcome :=
  match message with
  | none => .cbErr "no template and no options defined for nodemailer"
  | some m =>
    if ¬ truthyOptS m.toAddr then
      .cbErr "no template and no options defined for nodemailer"
    else
      match template with
      | none => .cbErr "no template defined"
      | some t =>
        if isUndefined (chooseTransporter m st.opts.transporter) then
          .thrownJson "SyntaxError: unexpected token u in JSON"
        else
          let transporterOpts := jsonRound (chooseTransporter m st.opts.transporter)
          let m2 : MailMessage := { m with transporter := none }
          if ¬ jsTruthy transporterOpts then .noTransporter m2
          else
            match getTemplate h2t st (some t) with
            | .cbErr e => .cbTemplateErr e m2
            | .thrown e => .thrownRender e m2
            | .ok content =>
              .transport transporterOpts
                { m2 with
                  subject := jsOrOptS m2.subject content.subject
                  html := jsOrOptS m2.html content.html
                  text := jsOrOptS m2.text content.text }

/-! ## Helper lemmas -/

/-- `applyFilter` either succeeds or throws the one `TypeError` of the null
regex match; no other error exists on this path. -/
theorem applyFilter_ok_or_typeError (reg : FilterReg) (ctx v : Value) (s : String) :
    (∃ w, applyFilter reg ctx v s = .ok w) ∨
      applyFilter reg ctx v s = .error typeErrorNullMatch := by
  unfold applyFilter
  cases hm : filterMatch s with
  | none => right; rfl
  | some f =>
    left
    cases hf : lookupFilter reg f with
    | none =>
      simp only [hf]
      exact ⟨v, rfl⟩
    | some fn =>
      simp only [hf]
      exact ⟨_, rfl⟩

/-- A pipe-segment list containing the empty segment always makes the filter
loop throw the `TypeError`. -/
theorem evalFilters_empty_segment (reg : FilterReg) (ctx : Value) :
    ∀ (segs : List String) (v : Value), "" ∈ segs →
      evalFilters reg ctx segs v = .error typeErrorNullMatch := by
  intro segs
  induction segs with
  | nil => intro v h; cases h
  | cons s rest ih =>
    intro v h
    by_cases hs : s = ""
    · subst hs
      have : applyFilter reg ctx v "" = .error typeErrorNullMatch := by
        unfold applyFilter filterMatch; rfl
      simp [evalFilters, this]
    · have hmem : "" ∈ rest := by
        rcases List.mem_cons.mp h with he | hm
        · exact absurd he.symm hs
        · exact hm
      rcases applyFilter_ok_or_typeError reg ctx v s with ⟨w, hw⟩ | herr
      · simp [evalFilters, hw]; exact ih w hmem
      · simp [evalFilters, herr]

/-- Updating one key leaves reads of every other key unchanged. -/
theorem mapGetS_assocSet_ne {α : Type} (m : List (String × α)) (k k' : String)
    (v : α) (h : k ≠ k') : mapGetS (assocSet m k' v) k = mapGetS m k := by
  induction m with
  | nil =>
    have hne : ¬ k' = k := fun he => h he.symm
    simp [assocSet, mapGetS, hne]
  | cons e rest ih =>
    obtain ⟨k0, v0⟩ := e
    by_cases h0 : k0 = k'
    · subst h0
      have hk : ¬ k0 = k := fun he => h he.symm
      simp [assocSet, mapGetS, hk]
    · simp [assocSet, h0, mapGetS, ih]

/-- Folding translation documents into the cache leaves every key that no
document mentions unchanged. -/
theorem transFold_preserve (docs : List TranslationDoc)
    (old : List (String × Value)) (k : String)
    (h : k ∉ docs.map TranslationDoc.lang) :
    mapGetS (docs.foldl (fun m d => assocSet m d.lang d.keys) old) k = mapGetS old k := by
  induction docs generalizing old with
  | nil => rfl
  | cons d rest ih =>
    have h1 : k ≠ d.lang := by
      intro he; exact h (by simp [he])
    have h2 : k ∉ rest.map TranslationDoc.lang := by
      intro hm; exact h (by simp [hm])
    calc mapGetS ((d :: rest).foldl (fun m d => assocSet m d.lang d.keys) old) k
        = mapGetS (rest.foldl (fun m d => assocSet m d.lang d.keys)
            (assocSet old d.lang d.keys)) k := rfl
      _ = mapGetS (assocSet old d.lang d.keys) k := ih _ h2
      _ = mapGetS old k := mapGetS_assocSet_ne _ _ _ _ h1

/-! ## Claim theorems -/

/-- C2: For every expression value and every filter name that is not present
in the registered filter mapping, applying that filter during expression
evaluation returns the expression value unchanged and raises no error, and
the remaining filters in the pipe chain are still applied (evaluating the
chain with the unknown segment equals evaluating it without). -/
theorem applyFilter_unknown_filter_pass_through
    (reg : FilterReg) (ctx v : Value) (seg : String) (rest : List String) (f : String)
    (hname : filterMatch seg = some f)
    (hreg : lookupFilter reg f = none) :
    applyFilter reg ctx v seg = .ok v ∧
      evalFilters reg ctx (seg :: rest) v = evalFilters reg ctx rest v := by
  have h1 : applyFilter reg ctx v seg = .ok v := by
    unfold applyFilter
    rw [hname]
    simp [hreg]
  exact ⟨h1, by simp [evalFilters, h1]⟩

def upperFilter : List Value → Value
  | (Value.vStr s) :: _ => Value.vStr (String.mk (s.toList.map Char.toUpper))
  | _ => Value.vNull

def regUpper : FilterReg := [("upper", upperFilter)]

def ctxName : Value := .vObj [("data", .vObj [("name", .vStr "abc")])]

/-- Witness for C2 at the spec's own example: `missingFilter` is not
registered, the value passes through unchanged, and the following `upper`
filter still applies. -/
theorem applyFilter_unknown_filter_pass_through_witness :
    applyFilter regUpper ctxName (.vStr "abc") " missingFilter " = .ok (.vStr "abc") ∧
      evalFilters regUpper ctxName [" missingFilter ", " upper "] (.vStr "abc") =
        evalFilters regUpper ctxName [" upper "] (.vStr "abc") :=
  applyFilter_unknown_filter_pass_through regUpper ctxName (.vStr "abc")
    " missingFilter " [" upper "] "missingFilter" rfl rfl

/-- C4: Each filter parameter is classified by the precedence order of
`parseParam`: a quoted string literal becomes the unquoted string; otherwise
an integer literal becomes that integer (sign preserved); otherwise a float
literal becomes that float (sign preserved); otherwise the parameter is
resolved through the supplied context lookup. The last conjunct makes the
sign preservation explicit on signed digit strings. -/
theorem parseParam_classification :
    (∀ (p : String) (L : String → Value), isStringLit p = true →
        parseParam p L = .vStr (stripQuotes p)) ∧
    (∀ (p : String) (L : String → Value), isStringLit p = false →
        isIntegerLit p = true → parseParam p L = .vInt (jsParseInt p)) ∧
    (∀ (p : String) (L : String → Value), isStringLit p = false →
        isIntegerLit p = false → isFloatLit p = true →
        parseParam p L = jsParseFloat p) ∧
    (∀ (p : String) (L : String → Value), isStringLit p = false →
        isIntegerLit p = false → isFloatLit p = false →
        parseParam p L = L p) ∧
    (∀ (ds : List Char), ds ≠ [] → ds.all Char.isDigit = true →
        ∀ (L : String → Value),
          parseParam (String.mk ('-' :: ds)) L = .vInt (-(digitsVal ds : Int)) ∧
          parseParam (String.mk ('+' :: ds)) L = .vInt (digitsVal ds)) := by
  refine ⟨?_, ?_, ?_, ?_, ?_⟩
  · intro p L h; simp [parseParam, h]
  · intro p L h1 h2; simp [parseParam, h1, h2]
  · intro p L h1 h2 h3; simp [parseParam, h1, h2, h3]
  · intro p L h1 h2 h3; simp [parseParam, h1, h2, h3]
  · intro ds hne hdig L
    have hqm : isQuoteChar '-' = false := by decide
    have hqp : isQuoteChar '+' = false := by decide
    have hsm : isStringLit (String.mk ('-' :: ds)) = false := by
      unfold isStringLit
      cases h : ds.reverse with
      | nil => simp [h]
      | cons d mid => simp [h, hqm]
    have hsp : isStringLit (String.mk ('+' :: ds)) = false := by
      unfold isStringLit
      cases h : ds.reverse with
      | nil => simp [h]
      | cons d mid => simp [h, hqp]
    have hsplitm : splitSign ('-' :: ds) = (-1, ds) := by
      simp [splitSign]
    have hsplitp : splitSign ('+' :: ds) = (1, ds) := by
      simp [splitSign]
    have hie : ds.isEmpty = false := by
      cases ds with
      | nil => exact absurd rfl hne
      | cons c cs => rfl
    have him : isIntegerLit (String.mk ('-' :: ds)) = true := by
      simp [isIntegerLit, hsplitm, hie, hdig]
    have hip : isIntegerLit (String.mk ('+' :: ds)) = true := by
      simp [isIntegerLit, hsplitp, hie, hdig]
    constructor
    · rw [parseParam, if_neg (by simp [hsm]), if_pos (by simp [him])]
      simp [jsParseInt, hsplitm]
    · rw [parseParam, if_neg (by simp [hsp]), if_pos (by simp [hip])]
      simp [jsParseInt, hsplitp]

/-- Witness for C4: a quoted string keeps a literal colon and loses its
quotes, signed integer and float literals keep their sign, and an unmatched
parameter goes through the lookup. -/
theorem parseParam_classification_witness :
    parseParam "\x22a:b\x22" (fun _ => Value.vNull) = .vStr "a:b" ∧
    parseParam "-12" (fun _ => Value.vNull) = .vInt (-12) ∧
    parseParam "-2.5" (fun _ => Value.vNull) = .vFloat (-25) 1 ∧
    parseParam "data.name" (lookupParam ctxName) = lookupParam ctxName "data.name" :=
  ⟨parseParam_classification.1 _ _ rfl,
   parseParam_classification.2.1 _ _ rfl rfl,
   parseParam_classification.2.2.1 _ _ rfl rfl rfl,
   parseParam_classification.2.2.2.1 _ _ rfl rfl rfl⟩

def ctxPath : Value := .vObj [("path", .vStr "p")]

/-- C8 counterexample: the claim's own example `\x7b\x7b path || filter \x7d\x7d`
contains an empty pipe segment, and evaluation does not ignore it — the
filter-name regex fails to match the empty segment, `match[1]` is read off
`null`, and a `TypeError` is thrown; the same token without the empty
segment evaluates to the path's value. -/
theorem parseExpression_empty_segment_counterexample :
    parseExpression [] ctxPath "path || filter" = .error typeErrorNullMatch ∧
      parseExpression [] ctxPath "path | filter" = .ok (.vStr "p") :=
  ⟨rfl, rfl⟩

/-- C8 (amended): a token body containing an empty pipe segment (adjacent
pipes, or a trailing pipe) makes expression evaluation throw the `TypeError`
of the null filter-name match instead of ignoring the segment. -/
theorem parseExpression_empty_segment_throws
    (reg : FilterReg) (ctx : Value) (name : String)
    (h : "" ∈ ((splitOnPipe name.toList).map String.mk).tail) :
    parseExpression reg ctx name = .error typeErrorNullMatch := by
  unfold parseExpression
  cases hsplit : (splitOnPipe name.toList).map String.mk with
  | nil => rw [hsplit] at h; cases h
  | cons e fs =>
    rw [hsplit] at h
    exact evalFilters_empty_segment reg ctx fs _ h

/-- Witness for the amended C8 at a trailing-pipe token body. -/
theorem parseExpression_empty_segment_throws_witness :
    parseExpression [] ctxPath "path |" = .error typeErrorNullMatch :=
  parseExpression_empty_segment_throws [] ctxPath "path |" (by decide)

def stReloadCex : MailerState :=
  { opts := { defaultLanguage := "de", transporter := none, mustacheFormatter := [] }
    translations := [("de", .vStr "X")]
    templates := []
    subjects := [] }

/-- C3 counterexample: after a successful reload whose translations fetch
returns only an `en` document, the in-memory cache still contains the prior
`de` entry — it is not equal to the set of entries returned by the fetch, so
the caches are not replaced wholesale. -/
theorem reload_not_wholesale_counterexample :
    (reloadTemplates stReloadCex (.ok [⟨"en", .vStr "Y"⟩]) (.ok [])).state.translations
        = [("de", .vStr "X"), ("en", .vStr "Y")] ∧
      [("de", Value.vStr "X"), ("en", Value.vStr "Y")] ≠ [("en", Value.vStr "Y")] :=
  ⟨rfl, fun h => absurd (congrArg List.length h) (by decide)⟩

/-- C3 (amended): a successful fetch folds the fetched documents into the
existing live cache key-by-key — same-named entries are overwritten, every
key no fetched document mentions keeps its prior value — rather than
replacing the cache with exactly the fetched set; likewise for the template
and subject caches. -/
theorem reload_merges_key_by_key :
    (∀ (old : List (String × Value)) (docs : List TranslationDoc) (cb : Bool),
        getTranslationsStep old (.ok docs) cb =
          (docs.foldl (fun m d => assocSet m d.lang d.keys) old, .success)) ∧
    (∀ (old : List (String × Value)) (docs : List TranslationDoc) (cb : Bool)
        (k : String), k ∉ docs.map TranslationDoc.lang →
        mapGetS (getTranslationsStep old (.ok docs) cb).1 k = mapGetS old k) ∧
    (∀ (oldT oldS : List (String × Option String)) (docs : List TemplateDoc)
        (cb : Bool),
        getTemplatesStep oldT oldS (.ok docs) cb =
          (docs.foldl (fun p d => (assocSet p.1 d.name d.text, assocSet p.2 d.name d.subject))
            (oldT, oldS), .success)) := by
  refine ⟨fun old docs cb => rfl, ?_, fun oldT oldS docs cb => rfl⟩
  intro old docs cb k h
  exact transFold_preserve docs old k h

/-- Witness for the amended C3: the stale `de` entry keeps its prior value
through a reload fetching only `en`. -/
theorem reload_merges_key_by_key_witness :
    mapGetS (getTranslationsStep [("de", Value.vStr "X")]
        (.ok [⟨"en", Value.vStr "Y"⟩]) false).1 "de" =
      mapGetS [("de", Value.vStr "X")] "de" :=
  reload_merges_key_by_key.2.1 [("de", Value.vStr "X")]
    [⟨"en", Value.vStr "Y"⟩] false "de" (by decide)

def stKnown : MailerState :=
  { opts := { defaultLanguage := "de", transporter := none, mustacheFormatter := [] }
    translations := [("de", .vObj [("k", .vStr "v")])]
    templates := [("T1", some "Hello")]
    subjects := [] }

/-- C7: during `reloadTemplates` the fetch handlers run with no callback
supplied, so a failed translations fetch reaches `callback(err)` with
`callback === undefined` and throws a `TypeError` — it is not merely logged
and optionally reported. The caches, as the claim says, are left unchanged,
and a previously known template still renders afterwards. -/
theorem reload_fetch_error_throws_cache_unchanged :
    (reloadTemplates stKnown (.error "db down") (.ok [])).transStep
        = .thrownTypeError callbackUndefinedMsg ∧
      (reloadTemplates stKnown (.error "db down") (.ok [])).state.translations
        = stKnown.translations ∧
      (reloadTemplates stKnown (.error "db down") (.ok [])).state.templates
        = stKnown.templates ∧
      getTemplate id (reloadTemplates stKnown (.error "db down") (.ok [])).state
          (some { language := none, name := some "T1", data := none })
        = .ok { subject := none, html := some "Hello", text := some "Hello" } :=
  ⟨rfl, rfl, rfl, rfl⟩

/-- C6: every `send` call whose message argument is absent or lacks a truthy
`to` field reports the invalid-request error through the callback and never
reaches the mail transport — no transport is created and `sendMail` is never
invoked. -/
theorem send_without_recipient_no_transport
    (h2t : String → String) (st : MailerState) (template : Option TemplateOps)
    (message : Option MailMessage)
    (h : message = none ∨ ∃ m, message = some m ∧ truthyOptS m.toAddr = false) :
    send h2t st template message
        = .cbErr "no template and no options defined for nodemailer" ∧
      ∀ cfg fm, send h2t st template message ≠ .transport cfg fm := by
  have h1 : send h2t st template message
      = .cbErr "no template and no options defined for nodemailer" := by
    rcases h with h | ⟨m, hm, hto⟩
    · subst h; rfl
    · subst hm
      simp [send, hto]
  refine ⟨h1, fun cfg fm hc => ?_⟩
  rw [h1] at hc
  cases hc

/-- Witness for C6: a message with no `to` field is rejected before the
transport is touched. -/
theorem send_without_recipient_no_transport_witness :
    send id stKnown (some { language := none, name := some "T1", data := none })
        (some { toAddr := none, subject := none, html := none, text := none,
                transporter := none })
        = .cbErr "no template and no options defined for nodemailer" ∧
      ∀ cfg fm,
        send id stKnown (some { language := none, name := some "T1", data := none })
            (some { toAddr := none, subject := none, html := none, text := none,
                    transporter := none })
          ≠ .transport cfg fm :=
  send_without_recipient_no_transport id stKnown
    (some { language := none, name := some "T1", data := none })
    (some { toAddr := none, subject := none, html := none, text := none,
            transporter := none })
    (Or.inr ⟨_, rfl, rfl⟩)

def stEmpty : MailerState :=
  { opts := { defaultLanguage := "de", transporter := none, mustacheFormatter := [] }
    translations := []
    templates := []
    subjects := [] }

/-- C5 counterexample: for a template name with no entry anywhere, the
returned message's `html` field is never assigned — it is `undefined`
(modelled `none`), not the empty string the claim asserts. -/
theorem getTemplate_unknown_name_counterexample :
    getTemplate id stEmpty (some { language := none, name := some "nope", data := none })
        = .ok { subject := none, html := none, text := none } ∧
      (none : Option String) ≠ some "" :=
  ⟨rfl, by simp⟩

/-- C5 (amended): for every template name with no truthy entry in the
template cache, `getTemplate` does not throw (provided the subject — when one
exists — renders without error) and returns a message whose `html` equals the
twice-rendered subject when a subject exists, and whose `html` is absent
(`undefined`, not the empty string) when no subject exists either. -/
theorem getTemplate_unknown_template_html :
    (∀ (h2t : String → String) (st : MailerState) (ops : TemplateOps)
        (s r1 r2 : String),
      truthyStrOf st.templates ops.name = none →
      truthyStrOf st.subjects ops.name = some s →
      render st.opts.mustacheFormatter (compileData st ops) s = .ok r1 →
      render st.opts.mustacheFormatter (compileData st ops) r1 = .ok r2 →
      getTemplate h2t st (some ops)
        = .ok { subject := some r2, html := some r2,
                text := if truthyOptS (some r2) then some (h2t r2) else none }) ∧
    (∀ (h2t : String → String) (st : MailerState) (ops : TemplateOps),
      truthyStrOf st.templates ops.name = none →
      truthyStrOf st.subjects ops.name = none →
      getTemplate h2t st (some ops) = .ok { subject := none, html := none, text := none }) := by
  constructor
  · intro h2t st ops s r1 r2 htmpl hsub hr1 hr2
    simp [getTemplate, hsub, htmpl, renderTwiceOpt, hr1, hr2]
  · intro h2t st ops htmpl hsub
    simp [getTemplate, hsub, htmpl, renderTwiceOpt, truthyOptS]

def stSubjOnly : MailerState :=
  { opts := { defaultLanguage := "de", transporter := none, mustacheFormatter := [] }
    translations := []
    templates := []
    subjects := [("S1", some "Subject line")] }

/-- Witness for the amended C5: a name with only a subject yields
`html = subject`; a fully unknown name yields an absent `html`. -/
theorem getTemplate_unknown_template_html_witness :
    getTemplate id stSubjOnly (some { language := none, name := some "S1", data := none })
        = .ok { subject := some "Subject line", html := some "Subject line",
                text := if truthyOptS (some "Subject line") then
                          some (id "Subject line") else none } ∧
      getTemplate id stSubjOnly (some { language := none, name := some "S2", data := none })
        = .ok { subject := none, html := none, text := none } :=
  ⟨getTemplate_unknown_template_html.1 id stSubjOnly
      { language := none, name := some "S1", data := none }
      "Subject line" "Subject line" "Subject line" rfl rfl rfl rfl,
   getTemplate_unknown_template_html.2 id stSubjOnly
      { language := none, name := some "S2", data := none } rfl rfl⟩

def chainState : MailerState :=
  { opts := { defaultLanguage := "de", transporter := none, mustacheFormatter := [] }
    translations := []
    templates := [("T1", some "A \x7b\x7b templates.T2 \x7d\x7d Z"),
                  ("T2", some "\x7b\x7btemplates.T3\x7d\x7d"),
                  ("T3", some "\x7b\x7btemplates.T4\x7d\x7d"),
                  ("T4", some "DEEP")]
    subjects := [] }

/-- C1: whenever a truthy subject text is stored, `getTemplate` renders it
through the engine and renders the result a second time through the same
engine and context, and likewise renders the body exactly twice when a body
template exists; consequently (second conjunct) a chain `T1 → T2 → T3`
resolves only two levels — with `T3` itself referencing `T4`, two passes over
`T1` leave the literal token text of the third reference in the output even
though `T4` is present in the template set. -/
theorem getTemplate_renders_subject_and_body_twice :
    (∀ (h2t : String → String) (st : MailerState) (ops : TemplateOps)
        (s t r1 r2 b1 b2 : String),
      truthyStrOf st.subjects ops.name = some s →
      truthyStrOf st.templates ops.name = some t →
      render st.opts.mustacheFormatter (compileData st ops) s = .ok r1 →
      render st.opts.mustacheFormatter (compileData st ops) r1 = .ok r2 →
      render st.opts.mustacheFormatter (compileData st ops) t = .ok b1 →
      render st.opts.mustacheFormatter (compileData st ops) b1 = .ok b2 →
      getTemplate h2t st (some ops)
        = .ok { subject := some r2, html := some b2,
                text := if truthyOptS (some b2) then some (h2t b2) else none }) ∧
    getTemplate id chainState (some { language := none, name := some "T1", data := none })
      = .ok { subject := none,
              html := some "A \x7b\x7btemplates.T4\x7d\x7d Z",
              text := some "A \x7b\x7btemplates.T4\x7d\x7d Z" } := by
  constructor
  · intro h2t st ops s t r1 r2 b1 b2 hsub htmpl hr1 hr2 hb1 hb2
    simp [getTemplate, hsub, htmpl, renderTwiceOpt, hr1, hr2, hb1, hb2]
  · rfl

def stBoth : MailerState :=
  { opts := { defaultLanguage := "de", transporter := none, mustacheFormatter := [] }
    translations := []
    templates := [("T", some "BODY")]
    subjects := [("T", some "SUBJ")] }

/-- Witness for C1 on a state holding both a subject and a body text. -/
theorem getTemplate_renders_subject_and_body_twice_witness :
    getTemplate id stBoth (some { language := none, name := some "T", data := none })
      = .ok { subject := some "SUBJ", html := some "BODY",
              text := if truthyOptS (some "BODY") then some (id "BODY") else none } :=
  getTemplate_renders_subject_and_body_twice.1 id stBoth
    { language := none, name := some "T", data := none }
    "SUBJ" "BODY" "SUBJ" "SUBJ" "BODY" "BODY" rfl rfl rfl rfl rfl rfl

/-- C9: on the sending path the transport configuration is the message-level
`transporter` field when that field is truthy, else the instance-level
default (conjuncts two and three), and the `transporter` field is deleted
from the message before it is forwarded, so the transport receives a message
whose `transporter` is absent (first conjunct). -/
theorem send_transporter_resolution_and_strip
    (h2t : String → String) (st : MailerState) (t : TemplateOps) (m : MailMessage)
    (content : RenderedMessage)
    (hto : truthyOptS m.toAddr = true)
    (hch : isUndefined (chooseTransporter m st.opts.transporter) = false)
    (htr : jsTruthy (jsonRound (chooseTransporter m st.opts.transporter)) = true)
    (hgt : getTemplate h2t st (some t) = .ok content) :
    send h2t st (some t) (some m)
        = .transport (jsonRound (chooseTransporter m st.opts.transporter))
            { toAddr := m.toAddr
              subject := jsOrOptS m.subject content.subject
              html := jsOrOptS m.html content.html
              text := jsOrOptS m.text content.text
              transporter := none } ∧
      (∀ v, m.transporter = some v → jsTruthy v = true →
          chooseTransporter m st.opts.transporter = v) ∧
      (jsTruthy (match m.transporter with | some v => v | none => Value.vNull) = false →
          chooseTransporter m st.opts.transporter
            = (match st.opts.transporter with | some w => w | none => Value.vNull)) := by
  refine ⟨?_, ?_, ?_⟩
  · simp [send, hto, hch, htr, hgt]
  · intro v hv htv
    simp [chooseTransporter, hv, htv]
  · intro hfalse
    simp [chooseTransporter, hfalse]

def opsT : TemplateOps := { language := none, name := some "T", data := none }

def stSend : MailerState :=
  { opts := { defaultLanguage := "de",
              transporter := some (.vObj [("host", .vStr "default")]),
              mustacheFormatter := [] }
    translations := []
    templates := [("T", some "BODY")]
    subjects := [] }

def msgSend : MailMessage :=
  { toAddr := some "a@b", subject := none, html := none, text := none,
    transporter := some (.vObj [("host", .vStr "mine")]) }

/-- Witness for C9: a message-level transporter overrides the instance
default, and the forwarded message carries no `transporter` field. -/
theorem send_transporter_resolution_and_strip_witness :
    send id stSend (some opsT) (some msgSend)
      = .transport (.vObj [("host", .vStr "mine")])
          { toAddr := some "a@b", subject := none, html := some "BODY",
            text := some "BODY", transporter := none } := by
  have h := (send_transporter_resolution_and_strip id stSend opsT msgSend
    { subject := none, html := some "BODY", text := some "BODY" }
    rfl rfl rfl rfl).1
  simpa [msgSend, stSend, chooseTransporter, jsTruthy, jsonRound, jsonRoundFields,
    jsOrOptS] using h

def stC10 : MailerState :=
  { opts := { defaultLanguage := "de",
              transporter := some (.vObj [("host", .vStr "x")]),
              mustacheFormatter := [] }
    translations := []
    templates := []
    subjects := [] }

/-- C10 counterexample: a caller message that has no `transporter` field and
whose `to`, `subject`, `html` and `text` are all already set goes through
`send` unchanged — the object handed to the transport (and left with the
caller after the in-place mutations) equals the input exactly, so the
caller's message does NOT differ from what was passed in. -/
theorem send_message_unchanged_counterexample :
    send id stC10 (some { language := none, name := some "T", data := none })
        (some { toAddr := some "a@b", subject := some "s", html := some "h",
                text := some "t", transporter := none })
      = .transport (.vObj [("host", .vStr "x")])
          { toAddr := some "a@b", subject := some "s", html := some "h",
            text := some "t", transporter := none } := by
  simp [send, stC10, chooseTransporter, isUndefined, jsonRound, jsonRoundFields,
    jsTruthy, getTemplate, truthyStrOf, mapGetS, renderTwiceOpt, jsOrOptS, truthyOptS]

/-- C10 (amended): `send` updates the caller-supplied message in place — the
`transporter` field is deleted and the rendered subject, html and text are
assigned only onto falsy fields — and that updated object is what reaches
the mail transport; the caller's message differs from what was passed in
whenever it carried a `transporter` field (but can be unchanged otherwise,
per the counterexample). -/
theorem send_mutates_message_fields
    (h2t : String → String) (st : MailerState) (t : TemplateOps) (m : MailMessage)
    (content : RenderedMessage)
    (hto : truthyOptS m.toAddr = true)
    (hch : isUndefined (chooseTransporter m st.opts.transporter) = false)
    (htr : jsTruthy (jsonRound (chooseTransporter m st.opts.transporter)) = true)
    (hgt : getTemplate h2t st (some t) = .ok content) :
    send h2t st (some t) (some m)
        = .transport (jsonRound (chooseTransporter m st.opts.transporter))
            { toAddr := m.toAddr
              subject := jsOrOptS m.subject content.subject
              html := jsOrOptS m.html content.html
              text := jsOrOptS m.text content.text
              transporter := none } ∧
      ∀ v, m.transporter = some v →
        ({ toAddr := m.toAddr
           subject := jsOrOptS m.subject content.subject
           html := jsOrOptS m.html content.html
           text := jsOrOptS m.text content.text
           transporter := none } : MailMessage) ≠ m := by
  constructor
  · simp [send, hto, hch, htr, hgt]
  · intro v hv heq
    have h2 := congrArg MailMessage.transporter heq
    rw [hv] at h2
    cases h2

/-- Witness for the amended C10: with a transporter field present, the
message after `send` differs from the message passed in. -/
theorem send_mutates_message_fields_witness :
    ({ toAddr := some "a@b", subject := none, html := some "BODY",
       text := some "BODY", transporter := none } : MailMessage)
      ≠ { toAddr := some "a@b", subject := none, html := none, text := none,
          transporter := some (.vObj [("host", .vStr "mine")]) } :=
  (send_mutates_message_fields id stSend opsT msgSend
    { subject := none, html := some "BODY", text := some "BODY" }
    rfl rfl rfl rfl).2 (.vObj [("host", .vStr "mine")]) rfl
